import Mathlib

/-
  Verification of the credential-lifecycle core of the robotics backend
  (auth/tokens.py, auth/hashing.py, auth/dependencies.py, data/auth_redis.py,
  routes/auth.py, routes/devices.py).

  Modelling conventions:
  * Machine-level JWT strings cannot be reproduced (HMAC / Ed25519 signatures),
    but jwt.encode is deterministic and injective on payloads, so the string
    space splits into validly-signed tokens (in bijection with their payload)
    and all other strings.  The type Wire captures exactly that split.
  * Wall-clock time is an explicit Nat parameter (seconds); every section of
    code that calls datetime.now receives it as an argument.
  * The PostgreSQL tables and the Redis store are association lists threaded
    through each handler; Redis SET/GET/DEL keep the key-value semantics of
    data/auth_redis.py, including overwrite-on-set.
-/

namespace Robotics

/-- Payload of a symmetric (HS256) access or refresh token:
sub, type and exp claims, as built in auth/tokens.py. -/
structure TokenClaims where
  sub : String
  typ : String
  exp : Nat
deriving DecidableEq, Repr

/-- A string presented where a symmetric token is expected.  jwt.encode is
deterministic, so each payload corresponds to exactly one validly-signed
string (tok c); every other string fails signature verification (raw s). -/
inductive Wire where
  | tok : TokenClaims → Wire
  | raw : String → Wire
deriving DecidableEq, Repr

/-- auth/tokens.py: ACCESS_TOKEN_EXPIRE_MINUTES = 30. -/
def ACCESS_TOKEN_EXPIRE_MINUTES : Nat := 30

/-- auth/tokens.py: REFRESH_TOKEN_EXPIRE_DAYS = 30. -/
def REFRESH_TOKEN_EXPIRE_DAYS : Nat := 30

/-- auth/tokens.py create_access_token: payload sub, type = access,
exp = now + 30 minutes. -/
def create_access_token (user_id : String) (now : Nat) : Wire :=
  .tok ⟨user_id, "access", now + ACCESS_TOKEN_EXPIRE_MINUTES * 60⟩

/-- auth/tokens.py create_refresh_token: payload sub, type = refresh,
exp = now + 30 days. -/
def create_refresh_token (user_id : String) (now : Nat) : Wire :=
  .tok ⟨user_id, "refresh", now + REFRESH_TOKEN_EXPIRE_DAYS * 86400⟩

/-- The two decode failures of pyjwt that the handlers catch:
ExpiredSignatureError and InvalidTokenError. -/
inductive JwtError where
  | expired
  | invalid
deriving DecidableEq, Repr

/-- auth/tokens.py decode_token: signature verification plus expiry check.
A non-token string raises InvalidTokenError; a validly-signed token whose
exp has elapsed raises ExpiredSignatureError; otherwise the payload is
returned. -/
def decode_token (now : Nat) : Wire → Except JwtError TokenClaims
  | .raw _ => .error .invalid
  | .tok c => if c.exp ≤ now then .error .expired else .ok c

/-- Redis SET with key k: overwrites any previous value stored at k
(the TTL argument of data/auth_redis.py only causes spontaneous deletion,
which no claim here depends on). -/
def redisSet (db : List (String × Wire)) (k : String) (v : Wire) :
    List (String × Wire) :=
  (k, v) :: db.filter (fun p => p.1 ≠ k)

/-- Redis GET with key k. -/
def redisGet (db : List (String × Wire)) (k : String) : Option Wire :=
  (db.find? (fun p => p.1 == k)).map (·.2)

/-- Redis DEL with key k. -/
def redisDel (db : List (String × Wire)) (k : String) : List (String × Wire) :=
  db.filter (fun p => p.1 ≠ k)

/-- data/auth_redis.py set_refresh_token: SET refresh:user_id = token. -/
def set_refresh_token (db : List (String × Wire)) (user_id : String)
    (token : Wire) : List (String × Wire) :=
  redisSet db ("refresh:" ++ user_id) token

/-- data/auth_redis.py get_refresh_token: GET refresh:user_id. -/
def get_refresh_token (db : List (String × Wire)) (user_id : String) :
    Option Wire :=
  redisGet db ("refresh:" ++ user_id)

/-- data/auth_redis.py delete_refresh_token: DEL refresh:user_id. -/
def delete_refresh_token (db : List (String × Wire)) (user_id : String) :
    List (String × Wire) :=
  redisDel db ("refresh:" ++ user_id)

/-- auth/hashing.py: MAX_BCRYPT_LEN = 72. -/
def MAX_BCRYPT_LEN : Nat := 72

/-- Modelled from the spec: the bcrypt library primitive (bcrypt.hashpw /
bcrypt.checkpw are third-party code, not in the repository).  The spec asks
for a salted one-way verifier such that verification succeeds exactly when
the presented byte string matches the hashed byte string; the model keeps
the salt and a digest that determines the input bytes, which gives
checkpw b (hashpw b s) = true and nothing else the claims rely on. -/
structure BcryptHash where
  salt : Nat
  digest : List Nat
deriving DecidableEq, Repr

/-- Modelled from the spec: bcrypt.hashpw over already-truncated bytes. -/
def bcrypt_hashpw (bytes : List Nat) (salt : Nat) : BcryptHash :=
  ⟨salt, bytes⟩

/-- Modelled from the spec: bcrypt.checkpw succeeds exactly when the
presented bytes match the bytes that were hashed. -/
def bcrypt_checkpw (bytes : List Nat) (h : BcryptHash) : Bool :=
  bytes == h.digest

/-- The UTF-8 encoding of one code point, each byte as a Nat below 256
(the standard one-to-four-byte encoding used by str.encode). -/
def utf8CharBytes (c : Char) : List Nat :=
  let v := c.toNat
  if v < 0x80 then [v]
  else if v < 0x800 then
    [0xC0 + v / 0x40, 0x80 + v % 0x40]
  else if v < 0x10000 then
    [0xE0 + v / 0x1000, 0x80 + v / 0x40 % 0x40, 0x80 + v % 0x40]
  else
    [0xF0 + v / 0x40000, 0x80 + v / 0x1000 % 0x40,
     0x80 + v / 0x40 % 0x40, 0x80 + v % 0x40]

/-- The UTF-8 encoding of a string as a byte list (password.encode in
auth/hashing.py). -/
def utf8Bytes (s : String) : List Nat :=
  s.data.flatMap utf8CharBytes

/-- Python str.strip(): remove leading and trailing whitespace. -/
def pyStrip (s : String) : String :=
  ⟨((s.data.dropWhile Char.isWhitespace).reverse.dropWhile
      Char.isWhitespace).reverse⟩

/-- Python str.lower(): lowercase each character (the handlers apply it to
email addresses, where the ASCII range is what matters). -/
def pyLower (s : String) : String :=
  ⟨s.data.map Char.toLower⟩

/-- auth/hashing.py hash_password: truncate the UTF-8 encoding to 72 bytes,
generate a salt (passed here as an argument, since bcrypt.gensalt is
random), then hash. -/
def hash_password (password : String) (salt : Nat) : BcryptHash :=
  bcrypt_hashpw ((utf8Bytes password).take MAX_BCRYPT_LEN) salt

/-- auth/hashing.py verify_password: truncate the UTF-8 encoding to 72
bytes, then check against the stored hash. -/
def verify_password (password : String) (hashed : BcryptHash) : Bool :=
  bcrypt_checkpw ((utf8Bytes password).take MAX_BCRYPT_LEN) hashed

/-- A row of the auth_users table (data/auth_db.py): id UUID PRIMARY KEY,
email TEXT UNIQUE, password_hash TEXT. -/
structure AuthUser where
  id : String
  email : String
  password_hash : BcryptHash
deriving DecidableEq, Repr

/-- The mutable state the /auth handlers touch: the auth_users table and
the Redis refresh-session store. -/
structure AuthState where
  users : List AuthUser
  sessions : List (String × Wire)
deriving DecidableEq, Repr

/-- SELECT id, password_hash FROM auth_users WHERE email = e. -/
def findUserByEmail (users : List AuthUser) (email : String) :
    Option AuthUser :=
  users.find? (fun u => u.email == email)

/-- SELECT id, email FROM auth_users WHERE id = i. -/
def findUserById (users : List AuthUser) (user_id : String) :
    Option AuthUser :=
  users.find? (fun u => u.id == user_id)

/-- Result of POST /auth/register (routes/auth.py register): 400, 409, or
201 with the token pair. -/
inductive RegisterResult where
  | badRequest (detail : String)
  | conflict (detail : String)
  | created (access refresh : Wire)
deriving DecidableEq, Repr

/-- routes/auth.py register.  newId stands for str(uuid.uuid4()) and salt
for bcrypt.gensalt(), both produced by random generators at this point of
the handler. -/
def registerEndpoint (s : AuthState) (now : Nat) (newId : String)
    (email password : String) (salt : Nat) : RegisterResult × AuthState :=
  let email := pyLower (pyStrip email)
  if email == "" || password == "" then
    (.badRequest "email and password are required", s)
  else if password.length < 8 then
    (.badRequest "Password must be at least 8 characters", s)
  else if (findUserByEmail s.users email).isSome then
    (.conflict "Email already registered", s)
  else
    let password_hash := hash_password password salt
    let s1 : AuthState :=
      { s with users := s.users ++ [⟨newId, email, password_hash⟩] }
    let access := create_access_token newId now
    let refresh := create_refresh_token newId now
    (.created access refresh,
     { s1 with sessions := set_refresh_token s1.sessions newId refresh })

/-- Result of POST /auth/login (routes/auth.py login): 400, 401, or 200
with the token pair. -/
inductive LoginResult where
  | badRequest (detail : String)
  | unauthorized (detail : String)
  | ok (access refresh : Wire)
deriving DecidableEq, Repr

/-- routes/auth.py login: look the row up by normalized email, verify the
password, then mint and store a fresh pair.  The two failure causes of
line 99 (no row, password does not verify) produce one and the same
response value. -/
def loginEndpoint (s : AuthState) (now : Nat) (email password : String) :
    LoginResult × AuthState :=
  let email := pyLower (pyStrip email)
  if email == "" || password == "" then
    (.badRequest "email and password are required", s)
  else
    match findUserByEmail s.users email with
    | none => (.unauthorized "Invalid email or password", s)
    | some row =>
      if ! verify_password password row.password_hash then
        (.unauthorized "Invalid email or password", s)
      else
        let access := create_access_token row.id now
        let refresh := create_refresh_token row.id now
        (.ok access refresh,
         { s with sessions := set_refresh_token s.sessions row.id refresh })

/-- Result of POST /auth/refresh (routes/auth.py refresh): 400, 401 (with
the distinguishing detail string), or 200 with the new pair. -/
inductive RefreshResult where
  | badRequest (detail : String)
  | unauthorized (detail : String)
  | ok (access refresh : Wire)
deriving DecidableEq, Repr

/-- Whether the presented body field is empty after strip().  A
validly-signed JWT string is never whitespace-only, so only raw strings
can fail this check. -/
def wireTrimEmpty : Wire → Bool
  | .raw s => pyStrip s == ""
  | .tok _ => false

/-- routes/auth.py refresh: strict rotation.  Decode the presented token,
require type = refresh and a subject, then compare with the stored value:
no stored value fails with the session-expired detail; a mismatch deletes
the session and fails with the reuse-detected detail; a match deletes the
session, mints a new pair, stores the new refresh token and returns both
tokens. -/
def refreshEndpoint (s : AuthState) (now : Nat) (presented : Wire) :
    RefreshResult × AuthState :=
  if wireTrimEmpty presented then
    (.badRequest "refresh token is required", s)
  else
    match decode_token now presented with
    | .error .expired =>
      (.unauthorized "Refresh token expired, please log in again", s)
    | .error .invalid =>
      (.unauthorized "Invalid refresh token", s)
    | .ok payload =>
      if payload.typ ≠ "refresh" then
        (.unauthorized "Expected refresh token", s)
      else if payload.sub == "" then
        (.unauthorized "Token missing subject", s)
      else
        let user_id := payload.sub
        match get_refresh_token s.sessions user_id with
        | none =>
          (.unauthorized "Session expired, please log in again", s)
        | some stored =>
          if stored ≠ presented then
            (.unauthorized "Refresh token reuse detected — session invalidated",
             { s with sessions := delete_refresh_token s.sessions user_id })
          else
            let s1 : AuthState :=
              { s with sessions := delete_refresh_token s.sessions user_id }
            let new_access := create_access_token user_id now
            let new_refresh := create_refresh_token user_id now
            (.ok new_access new_refresh,
             { s1 with
                sessions := set_refresh_token s1.sessions user_id new_refresh })

/-- routes/auth.py logout (the handler body behind require_auth): delete
the caller's refresh session and return success = True unconditionally. -/
def logoutEndpoint (s : AuthState) (user_id : String) : Bool × AuthState :=
  (true, { s with sessions := delete_refresh_token s.sessions user_id })

/-- The authorization header of a request, as seen by require_auth after
its first check.  noBearer covers an absent header (request.headers.get
defaults to the empty string) and any value that does not start with
Bearer followed by a space; bearer t covers a header whose first space
splits it into Bearer and the token string t. -/
inductive AuthHeaderInput where
  | noBearer
  | bearer (token : Wire)
deriving DecidableEq, Repr

/-- The six failure classes of auth/dependencies.py require_auth, in the
order the handler tests for them. -/
inductive GateError where
  | missingHeader
  | expired
  | invalid
  | wrongType
  | noSubject
  | userNotFound
deriving DecidableEq, Repr

/-- The identity record require_auth passes to the wrapped handler. -/
structure CurrentUser where
  id : String
  email : String
deriving DecidableEq, Repr

/-- auth/dependencies.py require_auth: header check, symmetric decode,
type check, subject check, identity lookup.  The handler only ever reads
from the database (one SELECT), so the state is returned unchanged on
every path. -/
def require_auth (s : AuthState) (now : Nat) (hdr : AuthHeaderInput) :
    Except GateError CurrentUser × AuthState :=
  match hdr with
  | .noBearer => (.error .missingHeader, s)
  | .bearer token =>
    match decode_token now token with
    | .error .expired => (.error .expired, s)
    | .error .invalid => (.error .invalid, s)
    | .ok payload =>
      if payload.typ ≠ "access" then (.error .wrongType, s)
      else if payload.sub == "" then (.error .noSubject, s)
      else
        match findUserById s.users payload.sub with
        | none => (.error .userNotFound, s)
        | some row => (.ok ⟨row.id, row.email⟩, s)

/-- auth/tokens.py: OAC_EXPIRE_DAYS defaults to 7. -/
def OAC_EXPIRE_DAYS : Nat := 7

/-- Payload of an Offline Authorization Certificate, as built by
auth/tokens.py create_oac. -/
structure OacClaims where
  sub : String
  did : String
  dpk : String
  iat : Nat
  exp : Nat
  scope : String
  typ : String
  app_version : String
deriving DecidableEq, Repr

/-- auth/tokens.py create_oac: sub, did, dpk, iat = now,
exp = now + OAC_EXPIRE_DAYS, scope = offline_access, type = oac,
app_version.  Key material is taken as configured (loading raises before
any token is produced otherwise). -/
def create_oac (user_id device_id device_public_key_hash app_version : String)
    (now : Nat) : OacClaims :=
  { sub := user_id
    did := device_id
    dpk := device_public_key_hash
    iat := now
    exp := now + OAC_EXPIRE_DAYS * 86400
    scope := "offline_access"
    typ := "oac"
    app_version := app_version }

/-- A string presented where an OAC is expected: either the unique
Ed25519-signed encoding of some payload, or any other string. -/
inductive OacWire where
  | tok : OacClaims → OacWire
  | raw : String → OacWire
deriving DecidableEq, Repr

/-- auth/tokens.py decode_oac: verify with the Ed25519 public key and
check expiry; no database is consulted. -/
def decode_oac (now : Nat) : OacWire → Except JwtError OacClaims
  | .raw _ => .error .invalid
  | .tok c => if c.exp ≤ now then .error .expired else .ok c

/-- Modelled from the spec: auth/tokens.py hash_device_public_key is a
SHA-256 hex digest (library code).  The claims proved here never depend on
the digest's value, so it is represented as an injective tagging of the
input. -/
def hash_device_public_key (device_public_key : String) : String :=
  "sha256:" ++ device_public_key

/-- A row of the devices table (data/db.py): device_id UUID PRIMARY KEY,
user_id, device_name, device_type, device_public_key_hash, app_version
(nullable text), is_revoked, registered_at, last_renewed. -/
structure Device where
  device_id : String
  user_id : String
  device_name : String
  device_type : String
  device_public_key_hash : String
  app_version : Option String
  is_revoked : Bool
  registered_at : Nat
  last_renewed : Nat
deriving DecidableEq, Repr

/-- Result of POST /auth/devices/register (routes/devices.py
register_device): 400, a database integrity failure when the generated
device_id collides with the PRIMARY KEY, or 201 with the new id and OAC. -/
inductive RegisterDeviceResult where
  | badRequest (detail : String)
  | dbError
  | created (device_id : String) (oac : OacClaims)
deriving DecidableEq, Repr

/-- routes/devices.py register_device: validate the three required fields,
INSERT the row (app_version stored as the stripped string, possibly
empty; is_revoked defaults to FALSE; both timestamps default to NOW()),
then mint and return an OAC for the new device.  new_device_id stands for
str(uuid.uuid4()); inserting an id already present violates the devices
PRIMARY KEY, in which case no row is written. -/
def register_device (db : List Device) (now : Nat) (current_user : String)
    (new_device_id device_public_key device_name device_type app_version :
      String) : RegisterDeviceResult × List Device :=
  let device_public_key := pyStrip device_public_key
  let device_name := pyStrip device_name
  let device_type := pyStrip device_type
  let app_version := pyStrip app_version
  if device_public_key == "" then
    (.badRequest "device_public_key is required", db)
  else if device_name == "" then
    (.badRequest "device_name is required", db)
  else if device_type == "" then
    (.badRequest "device_type is required", db)
  else if db.any (fun d => d.device_id == new_device_id) then
    (.dbError, db)
  else
    let dpk_hash := hash_device_public_key device_public_key
    (.created new_device_id
      (create_oac current_user new_device_id dpk_hash app_version now),
     db ++ [{ device_id := new_device_id
              user_id := current_user
              device_name := device_name
              device_type := device_type
              device_public_key_hash := dpk_hash
              app_version := some app_version
              is_revoked := false
              registered_at := now
              last_renewed := now }])

/-- Result of POST /auth/devices/renew (routes/devices.py renew_oac):
400, 404, 403 for a revoked device, or 200 with the device id and a fresh
OAC. -/
inductive RenewResult where
  | badRequest (detail : String)
  | notFound (detail : String)
  | forbidden (detail : String)
  | ok (device_id : String) (oac : OacClaims)
deriving DecidableEq, Repr

/-- routes/devices.py renew_oac: SELECT the row by device_id and the
calling user, reject a missing row with 404 and a revoked one with 403,
otherwise UPDATE last_renewed = NOW() and app_version = the stripped
value or NULL, then mint a fresh OAC. -/
def renew_oac (db : List Device) (now : Nat) (current_user : String)
    (device_id app_version : String) : RenewResult × List Device :=
  let device_id := pyStrip device_id
  let app_version := pyStrip app_version
  if device_id == "" then
    (.badRequest "device_id is required", db)
  else
    match db.find? (fun d =>
        d.device_id == device_id && d.user_id == current_user) with
    | none => (.notFound "Device not found", db)
    | some row =>
      if row.is_revoked then (.forbidden "Device has been revoked", db)
      else
        let db' := db.map (fun d =>
          if d.device_id == device_id then
            { d with
                last_renewed := now
                app_version :=
                  if app_version == "" then none else some app_version }
          else d)
        (.ok device_id
          (create_oac current_user device_id row.device_public_key_hash
            app_version now),
         db')

/-- Result of DELETE /auth/devices/device_id (routes/devices.py
revoke_device): 404 or 200. -/
inductive RevokeResult where
  | notFound (detail : String)
  | ok
deriving DecidableEq, Repr

/-- routes/devices.py revoke_device: SELECT the row by device_id and the
calling user, 404 when absent, otherwise UPDATE is_revoked = TRUE. -/
def revoke_device (db : List Device) (current_user device_id : String) :
    RevokeResult × List Device :=
  if db.any (fun d =>
      d.device_id == device_id && d.user_id == current_user) then
    (.ok,
     db.map (fun d =>
       if d.device_id == device_id then { d with is_revoked := true } else d))
  else (.notFound "Device not found", db)

/-- One call against the devices table: the three mutating handlers of
routes/devices.py (list_devices only reads and is omitted from the
trace). -/
inductive DevOp where
  | registerDev (current_user new_device_id device_public_key device_name
      device_type app_version : String) (now : Nat)
  | renewDev (current_user device_id app_version : String) (now : Nat)
  | revokeDev (current_user device_id : String)
deriving DecidableEq, Repr

/-- The devices table after one handler call. -/
def devStep (db : List Device) : DevOp → List Device
  | .registerDev cu nid dpk dn dt av now =>
    (register_device db now cu nid dpk dn dt av).2
  | .renewDev cu did av now => (renew_oac db now cu did av).2
  | .revokeDev cu did => (revoke_device db cu did).2

/-- The devices table after a sequence of handler calls. -/
def devSteps (db : List Device) : List DevOp → List Device
  | [] => db
  | op :: ops => devSteps (devStep db op) ops

/-- The OAC a handler call returns to its caller, when it returns one. -/
def devOpOac (db : List Device) : DevOp → Option OacClaims
  | .registerDev cu nid dpk dn dt av now =>
    match (register_device db now cu nid dpk dn dt av).1 with
    | .created _ oac => some oac
    | _ => none
  | .renewDev cu did av now =>
    match (renew_oac db now cu did av).1 with
    | .ok _ oac => some oac
    | _ => none
  | .revokeDev _ _ => none

/-- One call against the auth state: the four mutating handlers of
routes/auth.py.  Random inputs (uuid4, gensalt) and the wall clock are
recorded in the operation. -/
inductive AuthOp where
  | registerOp (newId email password : String) (salt : Nat) (now : Nat)
  | loginOp (email password : String) (now : Nat)
  | refreshOp (presented : Wire) (now : Nat)
  | logoutOp (user_id : String)
deriving DecidableEq, Repr

/-- The auth state after one handler call. -/
def authStep (s : AuthState) : AuthOp → AuthState
  | .registerOp newId email password salt now =>
    (registerEndpoint s now newId email password salt).2
  | .loginOp email password now => (loginEndpoint s now email password).2
  | .refreshOp presented now => (refreshEndpoint s now presented).2
  | .logoutOp user_id => (logoutEndpoint s user_id).2

/-- The auth state after a sequence of handler calls. -/
def authSteps (s : AuthState) : List AuthOp → AuthState
  | [] => s
  | op :: ops => authSteps (authStep s op) ops

/-- The initial auth state: empty auth_users table, empty Redis store. -/
def authInit : AuthState := ⟨[], []⟩

/-- A state the service can be in: reached from the initial state by some
sequence of handler calls. -/
def ReachableAuth (s : AuthState) : Prop :=
  ∃ ops : List AuthOp, s = authSteps authInit ops

/-- How many entries the Redis store holds under the refresh key of a
given identity. -/
def sessionEntries (s : AuthState) (user_id : String) : Nat :=
  s.sessions.countP (fun p => p.1 == "refresh:" ++ user_id)

/-- Written from the spec's step list for the Authentication Gate (§4.5):
extract the bearer token, decode it in the symmetric domain, require claim
type access, require a non-empty subject, resolve the subject against the
identity store. -/
def authenticateSpec (s : AuthState) (now : Nat) (hdr : AuthHeaderInput) :
    Except GateError CurrentUser := do
  let token ← match hdr with
    | .noBearer => Except.error GateError.missingHeader
    | .bearer t => Except.ok t
  let payload ← match decode_token now token with
    | .error .expired => Except.error GateError.expired
    | .error .invalid => Except.error GateError.invalid
    | .ok c => Except.ok c
  if payload.typ ≠ "access" then
    Except.error GateError.wrongType
  else if payload.sub = "" then
    Except.error GateError.noSubject
  else
    match findUserById s.users payload.sub with
    | none => Except.error GateError.userNotFound
    | some row => Except.ok ⟨row.id, row.email⟩

/-
  Basic lemmas about the Redis model.
-/

theorem redisGet_redisSet_self (db : List (String × Wire)) (k : String)
    (v : Wire) : redisGet (redisSet db k v) k = some v := by
  simp [redisGet, redisSet]

theorem redisGet_redisDel_self (db : List (String × Wire)) (k : String) :
    redisGet (redisDel db k) k = none := by
  simp only [redisGet, redisDel]
  rw [List.find?_eq_none.mpr ?_]
  · rfl
  intro p hp
  rcases List.mem_filter.mp hp with ⟨-, hne⟩
  simpa using of_decide_eq_true hne

theorem get_refresh_token_set_self (db : List (String × Wire))
    (user_id : String) (token : Wire) :
    get_refresh_token (set_refresh_token db user_id token) user_id =
      some token :=
  redisGet_redisSet_self db _ token

theorem get_refresh_token_delete_self (db : List (String × Wire))
    (user_id : String) :
    get_refresh_token (delete_refresh_token db user_id) user_id = none :=
  redisGet_redisDel_self db _

/-
  Claim C7 — bcrypt truncation in auth/hashing.py.
-/

/-- C7: hash_password and verify_password truncate the password's UTF-8
encoding to at most 72 bytes before hashing, so a password verifies
against its own hash, and any two passwords whose UTF-8 encodings agree on
their first 72 bytes verify against each other's hashes. -/
theorem c7_hash_truncation (p q : String) (salt : Nat) :
    (hash_password p salt).digest = (utf8Bytes p).take MAX_BCRYPT_LEN ∧
    (hash_password p salt).digest.length ≤ 72 ∧
    verify_password p (hash_password p salt) = true ∧
    ((utf8Bytes p).take 72 = (utf8Bytes q).take 72 →
      verify_password q (hash_password p salt) = true ∧
      verify_password p (hash_password q salt) = true) := by
  refine ⟨rfl, ?_, ?_, fun h => ⟨?_, ?_⟩⟩
  · exact (utf8Bytes p).length_take_le 72
  · simp [verify_password, hash_password, bcrypt_checkpw, bcrypt_hashpw]
  · simp [verify_password, hash_password, bcrypt_checkpw, bcrypt_hashpw,
      MAX_BCRYPT_LEN, h]
  · simp [verify_password, hash_password, bcrypt_checkpw, bcrypt_hashpw,
      MAX_BCRYPT_LEN, h]

/-- Witness for C7: two concrete passwords longer than 72 bytes that agree
on their first 72 bytes verify against each other's hashes. -/
theorem c7_hash_truncation_witness :
    verify_password
      "aaaaaaaaaaaaaaaaaaaaaaaaaaaaaaaaaaaaaaaaaaaaaaaaaaaaaaaaaaaaaaaaaaaaaaaaXXX"
      (hash_password
        "aaaaaaaaaaaaaaaaaaaaaaaaaaaaaaaaaaaaaaaaaaaaaaaaaaaaaaaaaaaaaaaaaaaaaaaaYYYYY"
        7) = true :=
  ((c7_hash_truncation
      "aaaaaaaaaaaaaaaaaaaaaaaaaaaaaaaaaaaaaaaaaaaaaaaaaaaaaaaaaaaaaaaaaaaaaaaaYYYYY"
      "aaaaaaaaaaaaaaaaaaaaaaaaaaaaaaaaaaaaaaaaaaaaaaaaaaaaaaaaaaaaaaaaaaaaaaaaXXX"
      7).2.2.2 (by decide)).1

/-
  Claim C9 — logout deletes the session and is idempotent.
-/

/-- C9: logout always reports success, deletes the caller's refresh
session, and a second consecutive logout also succeeds while leaving the
state of the first one unchanged (a no-op, not an error). -/
theorem c9_logout_idempotent (s : AuthState) (user_id : String) :
    (logoutEndpoint s user_id).1 = true ∧
    get_refresh_token (logoutEndpoint s user_id).2.sessions user_id = none ∧
    (logoutEndpoint (logoutEndpoint s user_id).2 user_id).1 = true ∧
    (logoutEndpoint (logoutEndpoint s user_id).2 user_id).2 =
      (logoutEndpoint s user_id).2 := by
  refine ⟨rfl, get_refresh_token_delete_self _ _, rfl, ?_⟩
  simp [logoutEndpoint, delete_refresh_token, redisDel, List.filter_filter]

/-
  The three-way rotation case analysis of routes/auth.py refresh, shared
  by several claims below.
-/

/-- For a well-formed, unexpired refresh token presented to the refresh
endpoint, the handler's outcome is decided entirely by the comparison
with the stored session value. -/
theorem refreshEndpoint_cases (s : AuthState) (now : Nat) (u : String)
    (e : Nat) (hsub : u ≠ "") (hexp : now < e) :
    (get_refresh_token s.sessions u = none →
      refreshEndpoint s now (.tok ⟨u, "refresh", e⟩) =
        (.unauthorized "Session expired, please log in again", s)) ∧
    (∀ stored, get_refresh_token s.sessions u = some stored →
      stored ≠ .tok ⟨u, "refresh", e⟩ →
      refreshEndpoint s now (.tok ⟨u, "refresh", e⟩) =
        (.unauthorized "Refresh token reuse detected — session invalidated",
         { s with sessions := delete_refresh_token s.sessions u })) ∧
    (get_refresh_token s.sessions u = some (.tok ⟨u, "refresh", e⟩) →
      refreshEndpoint s now (.tok ⟨u, "refresh", e⟩) =
        (.ok (create_access_token u now) (create_refresh_token u now),
         ⟨s.users,
          set_refresh_token (delete_refresh_token s.sessions u) u
            (create_refresh_token u now)⟩)) := by
  have hlt : ¬ e ≤ now := Nat.not_le.mpr hexp
  refine ⟨fun hget => ?_, fun stored hget hne => ?_, fun hget => ?_⟩
  · simp [refreshEndpoint, wireTrimEmpty, decode_token, hlt, hsub, hget]
  · simp [refreshEndpoint, wireTrimEmpty, decode_token, hlt, hsub, hget, hne]
  · simp [refreshEndpoint, wireTrimEmpty, decode_token, hlt, hsub, hget]

/-- Any successfully decoded token is a validly-signed one whose payload
is the decode result, and its expiry has not elapsed. -/
theorem decode_token_ok_inv (now : Nat) (w : Wire) (c : TokenClaims)
    (hdec : decode_token now w = .ok c) : w = .tok c ∧ now < c.exp := by
  cases w with
  | raw s0 => simp [decode_token] at hdec
  | tok c' =>
    by_cases h : c'.exp ≤ now
    · simp [decode_token, h] at hdec
    · simp [decode_token, h] at hdec
      exact ⟨by rw [hdec], hdec ▸ Nat.lt_of_not_le h⟩

/-
  Claim C1 — the refresh endpoint implements the three-way rotation
  protocol.
-/

/-- C1: for a presented token P that decodes to a refresh payload with a
subject, the refresh handler fails with the session-expired response when
no session is stored; deletes the session and fails with the
reuse-detected response when the stored token differs from P; and deletes
the session, mints a fresh access+refresh pair, stores the new refresh
token and returns both tokens when the stored token equals P. -/
theorem c1_refresh_rotation (s : AuthState) (now : Nat) (P : Wire)
    (c : TokenClaims) (hdec : decode_token now P = .ok c)
    (htyp : c.typ = "refresh") (hsub : c.sub ≠ "") :
    (get_refresh_token s.sessions c.sub = none →
      refreshEndpoint s now P =
        (.unauthorized "Session expired, please log in again", s)) ∧
    (∀ stored, get_refresh_token s.sessions c.sub = some stored →
      stored ≠ P →
      refreshEndpoint s now P =
        (.unauthorized "Refresh token reuse detected — session invalidated",
         { s with sessions := delete_refresh_token s.sessions c.sub })) ∧
    (get_refresh_token s.sessions c.sub = some P →
      refreshEndpoint s now P =
        (.ok (create_access_token c.sub now) (create_refresh_token c.sub now),
         ⟨s.users,
          set_refresh_token (delete_refresh_token s.sessions c.sub) c.sub
            (create_refresh_token c.sub now)⟩) ∧
      get_refresh_token (refreshEndpoint s now P).2.sessions c.sub =
        some (create_refresh_token c.sub now)) := by
  obtain ⟨rfl, hexp⟩ := decode_token_ok_inv now P c hdec
  obtain ⟨u, ty, e⟩ := c
  cases htyp
  have h := refreshEndpoint_cases s now u e hsub hexp
  refine ⟨h.1, h.2.1, fun hget => ⟨h.2.2 hget, ?_⟩⟩
  rw [h.2.2 hget]
  exact get_refresh_token_set_self _ _ _

/-- Witness for C1: a concrete state holding the matching session rotates
and stores the freshly minted refresh token. -/
theorem c1_refresh_rotation_witness :
    refreshEndpoint ⟨[], [("refresh:u1", create_refresh_token "u1" 0)]⟩ 5
        (create_refresh_token "u1" 0) =
      (.ok (create_access_token "u1" 5) (create_refresh_token "u1" 5),
       ⟨[], [("refresh:u1", create_refresh_token "u1" 5)]⟩) := by
  have h := (c1_refresh_rotation
    ⟨[], [("refresh:u1", create_refresh_token "u1" 0)]⟩ 5
    (create_refresh_token "u1" 0) ⟨"u1", "refresh", 2592000⟩
    rfl rfl (by decide)).2.2 (by decide)
  exact h.1.trans (by decide)

/-
  Claim C4 — cross-domain rejection of the two symmetric token types.
-/

/-- C4: a token that decodes successfully but carries type access is
rejected by the refresh endpoint with the wrong-type response, and one
that carries type refresh is rejected by the authentication gate with
WrongType; neither rejection changes any state. -/
theorem c4_cross_domain_rejection (s : AuthState) (now : Nat) (w : Wire)
    (c : TokenClaims) (hdec : decode_token now w = .ok c) :
    (c.typ = "access" →
      refreshEndpoint s now w =
        (.unauthorized "Expected refresh token", s)) ∧
    (c.typ = "refresh" →
      require_auth s now (.bearer w) = (.error .wrongType, s)) := by
  obtain ⟨rfl, hexp⟩ := decode_token_ok_inv now w c hdec
  have hlt : ¬ c.exp ≤ now := Nat.not_le.mpr hexp
  constructor
  · intro hty
    simp [refreshEndpoint, wireTrimEmpty, decode_token, hlt, hty]
  · intro hty
    simp [require_auth, decode_token, hlt, hty]

/-- Witness for C4: an unexpired access token is refused by the refresh
endpoint and an unexpired refresh token is refused by the gate, both at a
concrete empty state. -/
theorem c4_cross_domain_rejection_witness :
    refreshEndpoint ⟨[], []⟩ 0 (create_access_token "u1" 0) =
      (.unauthorized "Expected refresh token", ⟨[], []⟩) ∧
    require_auth ⟨[], []⟩ 0 (.bearer (create_refresh_token "u1" 0)) =
      (.error .wrongType, ⟨[], []⟩) :=
  ⟨(c4_cross_domain_rejection ⟨[], []⟩ 0 (create_access_token "u1" 0)
      ⟨"u1", "access", 1800⟩ rfl).1 rfl,
   (c4_cross_domain_rejection ⟨[], []⟩ 0 (create_refresh_token "u1" 0)
      ⟨"u1", "refresh", 2592000⟩ rfl).2 rfl⟩

/-
  Claim C6 — the authentication gate performs the spec's checks in order
  and mutates nothing.
-/

/-- C6: on every input the gate of auth/dependencies.py returns exactly
what the spec's ordered check list prescribes — missing header, then
decode failure as reported, then wrong type, then missing subject, then
unknown user, then the resolved identity — and returns the state
untouched (its only database access is one SELECT). -/
theorem c6_gate_is_spec (s : AuthState) (now : Nat) (hdr : AuthHeaderInput) :
    (require_auth s now hdr).1 = authenticateSpec s now hdr ∧
    (require_auth s now hdr).2 = s := by
  cases hdr with
  | noBearer => exact ⟨rfl, rfl⟩
  | bearer w =>
    cases hdec : decode_token now w with
    | error e =>
      cases e <;>
        simp [require_auth, authenticateSpec, bind, Except.bind, hdec]
    | ok c =>
      by_cases hty : c.typ = "access"
      · by_cases hsub : c.sub = ""
        · simp [require_auth, authenticateSpec, bind, Except.bind, hdec, hty, hsub]
        · cases hfind : findUserById s.users c.sub with
          | none => simp [require_auth, authenticateSpec, bind, Except.bind, hdec, hty, hsub, hfind]
          | some row =>
            simp [require_auth, authenticateSpec, bind, Except.bind, hdec, hty, hsub, hfind]
      · simp [require_auth, authenticateSpec, bind, Except.bind, hdec, hty]

/-
  Claim C8 — failed logins are indistinguishable.
-/

/-- C8: a login that fails because the email is unknown and a login that
fails because the password does not verify produce one and the same
response (the same constructor and the same detail string) and leave the
state unchanged, so the caller cannot tell the two causes apart. -/
theorem c8_login_generic_failure (s : AuthState) (now1 now2 : Nat)
    (email1 pw1 email2 pw2 : String)
    (h1e : pyLower (pyStrip email1) ≠ "") (h1p : pw1 ≠ "")
    (h2e : pyLower (pyStrip email2) ≠ "") (h2p : pw2 ≠ "")
    (hnone : findUserByEmail s.users (pyLower (pyStrip email1)) = none)
    (row : AuthUser)
    (hrow : findUserByEmail s.users (pyLower (pyStrip email2)) = some row)
    (hbad : verify_password pw2 row.password_hash = false) :
    loginEndpoint s now1 email1 pw1 =
      (.unauthorized "Invalid email or password", s) ∧
    loginEndpoint s now2 email2 pw2 =
      (.unauthorized "Invalid email or password", s) ∧
    loginEndpoint s now1 email1 pw1 = loginEndpoint s now2 email2 pw2 := by
  have e1 : loginEndpoint s now1 email1 pw1 =
      (.unauthorized "Invalid email or password", s) := by
    simp [loginEndpoint, h1e, h1p, hnone]
  have e2 : loginEndpoint s now2 email2 pw2 =
      (.unauthorized "Invalid email or password", s) := by
    simp [loginEndpoint, h2e, h2p, hrow, hbad]
  exact ⟨e1, e2, e1.trans e2.symm⟩

/-- Witness for C8: at a concrete one-user store, an unknown email and a
wrong password for the known email yield literally equal responses. -/
theorem c8_login_generic_failure_witness :
    loginEndpoint ⟨[⟨"u1", "a@b.c", hash_password "password123" 0⟩], []⟩ 4
        "nobody@b.c" "password123" =
      loginEndpoint ⟨[⟨"u1", "a@b.c", hash_password "password123" 0⟩], []⟩ 9
        "a@b.c" "wrongpassword" :=
  (c8_login_generic_failure
    ⟨[⟨"u1", "a@b.c", hash_password "password123" 0⟩], []⟩ 4 9
    "nobody@b.c" "password123" "a@b.c" "wrongpassword"
    (by decide) (by decide) (by decide) (by decide) (by decide)
    ⟨"u1", "a@b.c", hash_password "password123" 0⟩
    (by decide) (by decide)).2.2

/-
  Claim C2 — the rotation chain T1 / T2 with reuse detection.
-/

/-- C2 counterexample: the claim asserts refresh(T1) returns T2 with
T2 ≠ T1 and that refresh(T1) afterwards fails with ReuseDetected.  Token
payloads carry second-granularity expiry and no nonce, so a refresh in
the same second as the login returns the login's own token again
(T2 = T1), and replaying T1 then succeeds a second time instead of
failing: at this concrete input the claim is false. -/
theorem c2_rotation_chain_counterexample :
    (refreshEndpoint
        (loginEndpoint ⟨[⟨"u1", "a@b.c", hash_password "password123" 0⟩], []⟩
          0 "a@b.c" "password123").2
        0 (create_refresh_token "u1" 0)).1 =
      .ok (create_access_token "u1" 0) (create_refresh_token "u1" 0) ∧
    (refreshEndpoint
        (refreshEndpoint
          (loginEndpoint ⟨[⟨"u1", "a@b.c", hash_password "password123" 0⟩], []⟩
            0 "a@b.c" "password123").2
          0 (create_refresh_token "u1" 0)).2
        0 (create_refresh_token "u1" 0)).1 ≠
      .unauthorized "Refresh token reuse detected — session invalidated" := by
  constructor
  · decide
  · decide

/-- C2 (amended: the three calls happen at pairwise-usable times and the
rotation call is issued at a time distinct from the login's, so the two
minted refresh tokens carry different expiry claims): refresh(T1) on the
state left by login succeeds and returns T2 ≠ T1; replaying T1 afterwards
fails with the reuse-detected response and deletes the session; and a
subsequent refresh(T2) also fails, with the session-gone response. -/
theorem c2_rotation_chain (s : AuthState) (row : AuthUser)
    (email password : String) (t1 t2 t3 t4 : Nat)
    (he : pyLower (pyStrip email) ≠ "") (hp : password ≠ "")
    (hrow : findUserByEmail s.users (pyLower (pyStrip email)) = some row)
    (hver : verify_password password row.password_hash = true)
    (hid : row.id ≠ "") (ht2 : t2 ≠ t1)
    (hd2 : t2 < t1 + REFRESH_TOKEN_EXPIRE_DAYS * 86400)
    (hd3 : t3 < t1 + REFRESH_TOKEN_EXPIRE_DAYS * 86400)
    (hd4 : t4 < t2 + REFRESH_TOKEN_EXPIRE_DAYS * 86400) :
    (loginEndpoint s t1 email password).1 =
      .ok (create_access_token row.id t1) (create_refresh_token row.id t1) ∧
    refreshEndpoint (loginEndpoint s t1 email password).2 t2
        (create_refresh_token row.id t1) =
      ((.ok (create_access_token row.id t2) (create_refresh_token row.id t2)),
       (refreshEndpoint (loginEndpoint s t1 email password).2 t2
          (create_refresh_token row.id t1)).2) ∧
    create_refresh_token row.id t2 ≠ create_refresh_token row.id t1 ∧
    (refreshEndpoint
        (refreshEndpoint (loginEndpoint s t1 email password).2 t2
          (create_refresh_token row.id t1)).2 t3
        (create_refresh_token row.id t1)).1 =
      .unauthorized "Refresh token reuse detected — session invalidated" ∧
    (refreshEndpoint
        (refreshEndpoint
          (refreshEndpoint (loginEndpoint s t1 email password).2 t2
            (create_refresh_token row.id t1)).2 t3
          (create_refresh_token row.id t1)).2 t4
        (create_refresh_token row.id t2)).1 =
      .unauthorized "Session expired, please log in again" := by
  have hT : create_refresh_token row.id t2 ≠ create_refresh_token row.id t1 := by
    intro h
    have h2 : t2 + REFRESH_TOKEN_EXPIRE_DAYS * 86400 =
        t1 + REFRESH_TOKEN_EXPIRE_DAYS * 86400 := by
      have h3 := congrArg
        (fun w => match w with | Wire.tok c => c.exp | Wire.raw _ => 0) h
      simpa [create_refresh_token] using h3
    exact ht2 (Nat.add_right_cancel h2)
  have hlog : loginEndpoint s t1 email password =
      (.ok (create_access_token row.id t1) (create_refresh_token row.id t1),
       ⟨s.users,
        set_refresh_token s.sessions row.id
          (create_refresh_token row.id t1)⟩) := by
    simp [loginEndpoint, he, hp, hrow, hver]
  have e1 : create_refresh_token row.id t1 =
      Wire.tok ⟨row.id, "refresh", t1 + REFRESH_TOKEN_EXPIRE_DAYS * 86400⟩ :=
    rfl
  have e2 : create_refresh_token row.id t2 =
      Wire.tok ⟨row.id, "refresh", t2 + REFRESH_TOKEN_EXPIRE_DAYS * 86400⟩ :=
    rfl
  rw [e1, e2] at hT ⊢
  have hget1 : get_refresh_token
      (loginEndpoint s t1 email password).2.sessions row.id =
      some (Wire.tok
        ⟨row.id, "refresh", t1 + REFRESH_TOKEN_EXPIRE_DAYS * 86400⟩) := by
    rw [hlog]
    exact get_refresh_token_set_self _ _ _
  have step2 := (refreshEndpoint_cases (loginEndpoint s t1 email password).2
      t2 row.id (t1 + REFRESH_TOKEN_EXPIRE_DAYS * 86400) hid hd2).2.2 hget1
  have hget2 : get_refresh_token
      (refreshEndpoint (loginEndpoint s t1 email password).2 t2
        (Wire.tok
          ⟨row.id, "refresh",
           t1 + REFRESH_TOKEN_EXPIRE_DAYS * 86400⟩)).2.sessions row.id =
      some (Wire.tok
        ⟨row.id, "refresh", t2 + REFRESH_TOKEN_EXPIRE_DAYS * 86400⟩) := by
    rw [step2]
    exact get_refresh_token_set_self _ _ _
  have step3 := (refreshEndpoint_cases
      (refreshEndpoint (loginEndpoint s t1 email password).2 t2
        (Wire.tok
          ⟨row.id, "refresh", t1 + REFRESH_TOKEN_EXPIRE_DAYS * 86400⟩)).2
      t3 row.id (t1 + REFRESH_TOKEN_EXPIRE_DAYS * 86400) hid hd3).2.1
      (Wire.tok ⟨row.id, "refresh", t2 + REFRESH_TOKEN_EXPIRE_DAYS * 86400⟩)
      hget2 hT
  have hget3 : get_refresh_token
      (refreshEndpoint
        (refreshEndpoint (loginEndpoint s t1 email password).2 t2
          (Wire.tok
            ⟨row.id, "refresh", t1 + REFRESH_TOKEN_EXPIRE_DAYS * 86400⟩)).2
        t3
        (Wire.tok
          ⟨row.id, "refresh",
           t1 + REFRESH_TOKEN_EXPIRE_DAYS * 86400⟩)).2.sessions row.id =
      none := by
    rw [step3]
    exact get_refresh_token_delete_self _ _
  have step4 := (refreshEndpoint_cases
      (refreshEndpoint
        (refreshEndpoint (loginEndpoint s t1 email password).2 t2
          (Wire.tok
            ⟨row.id, "refresh", t1 + REFRESH_TOKEN_EXPIRE_DAYS * 86400⟩)).2
        t3
        (Wire.tok
          ⟨row.id, "refresh", t1 + REFRESH_TOKEN_EXPIRE_DAYS * 86400⟩)).2
      t4 row.id (t2 + REFRESH_TOKEN_EXPIRE_DAYS * 86400) hid hd4).1 hget3
  refine ⟨by rw [hlog]; rfl, ?_, hT, ?_, ?_⟩
  · rw [step2]
    rfl
  · rw [step3]
  · rw [step4]

/-- Witness for C2 (amended): the full chain at concrete times 0, 1, 2, 3
with a concrete one-user store. -/
theorem c2_rotation_chain_witness :
    (refreshEndpoint
        (loginEndpoint ⟨[⟨"u1", "a@b.c", hash_password "password123" 0⟩], []⟩
          0 "a@b.c" "password123").2
        1 (create_refresh_token "u1" 0)).1 =
      .ok (create_access_token "u1" 1) (create_refresh_token "u1" 1) ∧
    create_refresh_token "u1" 1 ≠ create_refresh_token "u1" 0 ∧
    (refreshEndpoint
        (refreshEndpoint
          (loginEndpoint ⟨[⟨"u1", "a@b.c", hash_password "password123" 0⟩], []⟩
            0 "a@b.c" "password123").2
          1 (create_refresh_token "u1" 0)).2
        2 (create_refresh_token "u1" 0)).1 =
      .unauthorized "Refresh token reuse detected — session invalidated" := by
  have h := c2_rotation_chain
    ⟨[⟨"u1", "a@b.c", hash_password "password123" 0⟩], []⟩
    ⟨"u1", "a@b.c", hash_password "password123" 0⟩
    "a@b.c" "password123" 0 1 2 3
    (by decide) (by decide) (by decide) (by decide) (by decide) (by decide)
    (by decide) (by decide) (by decide)
  exact ⟨congrArg Prod.fst h.2.1, h.2.2.1, h.2.2.2.1⟩

/-
  Claim C3 — the store keeps at most one refresh token per identity, and
  every issuing operation overwrites it.
-/

theorem nodupKeys_redisSet (db : List (String × Wire)) (k : String) (v : Wire)
    (h : (db.map Prod.fst).Nodup) : ((redisSet db k v).map Prod.fst).Nodup := by
  simp only [redisSet, List.map_cons, List.nodup_cons]
  constructor
  · intro hmem
    obtain ⟨p, hp, hpk⟩ := List.mem_map.mp hmem
    rcases List.mem_filter.mp hp with ⟨-, hne⟩
    exact (of_decide_eq_true hne) hpk
  · exact h.sublist ((db.filter_sublist).map Prod.fst)

theorem nodupKeys_redisDel (db : List (String × Wire)) (k : String)
    (h : (db.map Prod.fst).Nodup) : ((redisDel db k).map Prod.fst).Nodup :=
  h.sublist ((db.filter_sublist).map Prod.fst)

/-- Every auth handler leaves the session store alone, deletes one key,
overwrites one key, or deletes and then overwrites one key. -/
theorem authStep_sessions_shape (s : AuthState) (op : AuthOp) :
    (authStep s op).sessions = s.sessions ∨
    (∃ u, (authStep s op).sessions = delete_refresh_token s.sessions u) ∨
    (∃ u tok, (authStep s op).sessions = set_refresh_token s.sessions u tok) ∨
    (∃ u tok, (authStep s op).sessions =
      set_refresh_token (delete_refresh_token s.sessions u) u tok) := by
  cases op with
  | registerOp newId email password salt now =>
    simp only [authStep, registerEndpoint]
    split
    · exact Or.inl rfl
    split
    · exact Or.inl rfl
    split
    · exact Or.inl rfl
    · exact Or.inr (Or.inr (Or.inl ⟨newId, _, rfl⟩))
  | loginOp email password now =>
    simp only [authStep, loginEndpoint]
    split
    · exact Or.inl rfl
    split
    · exact Or.inl rfl
    split
    · exact Or.inl rfl
    · exact Or.inr (Or.inr (Or.inl ⟨_, _, rfl⟩))
  | refreshOp presented now =>
    simp only [authStep, refreshEndpoint]
    split
    · exact Or.inl rfl
    split
    · exact Or.inl rfl
    · exact Or.inl rfl
    split
    · exact Or.inl rfl
    split
    · exact Or.inl rfl
    split
    · exact Or.inl rfl
    split
    · exact Or.inr (Or.inl ⟨_, rfl⟩)
    · exact Or.inr (Or.inr (Or.inr ⟨_, _, rfl⟩))
  | logoutOp user_id =>
    exact Or.inr (Or.inl ⟨user_id, rfl⟩)

theorem authStep_nodupKeys (s : AuthState) (op : AuthOp)
    (h : (s.sessions.map Prod.fst).Nodup) :
    ((authStep s op).sessions.map Prod.fst).Nodup := by
  rcases authStep_sessions_shape s op with h0 | ⟨u, h0⟩ | ⟨u, tok, h0⟩ |
    ⟨u, tok, h0⟩ <;> rw [h0]
  · exact h
  · exact nodupKeys_redisDel _ _ h
  · exact nodupKeys_redisSet _ _ _ h
  · exact nodupKeys_redisSet _ _ _ (nodupKeys_redisDel _ _ h)

theorem authSteps_nodupKeys (s : AuthState) (ops : List AuthOp)
    (h : (s.sessions.map Prod.fst).Nodup) :
    ((authSteps s ops).sessions.map Prod.fst).Nodup := by
  induction ops generalizing s with
  | nil => exact h
  | cons op ops ih => exact ih (authStep s op) (authStep_nodupKeys s op h)

theorem countP_key_le_one (db : List (String × Wire))
    (h : (db.map Prod.fst).Nodup) (k : String) :
    db.countP (fun p => p.1 == k) ≤ 1 := by
  have hc : db.countP (fun p => p.1 == k) = (db.map Prod.fst).count k := by
    rw [List.count, List.countP_map]
    rfl
  rw [hc]
  exact List.nodup_iff_count_le_one.mp h k

/-- register succeeded: the row with the new id was created and the fresh
refresh token was stored under the new id. -/
theorem registerEndpoint_created_inv (s : AuthState) (now : Nat)
    (newId email password : String) (salt : Nat) (acc ref : Wire)
    (h : (registerEndpoint s now newId email password salt).1 =
      .created acc ref) :
    acc = create_access_token newId now ∧
    ref = create_refresh_token newId now ∧
    (registerEndpoint s now newId email password salt).2.sessions =
      set_refresh_token s.sessions newId (create_refresh_token newId now) := by
  simp only [registerEndpoint] at h ⊢
  split at h
  next hc1 => exact absurd h (by simp)
  next hc1 =>
    split at h
    next hc2 => exact absurd h (by simp)
    next hc2 =>
      split at h
      next hc3 => exact absurd h (by simp)
      next hc3 =>
        obtain ⟨h1, h2⟩ := RegisterResult.created.inj h
        refine ⟨h1.symm, h2.symm, ?_⟩
        simp only [if_neg hc1, if_neg hc2, if_neg hc3]

/-- login succeeded: the email resolved to a row, the password verified,
and the fresh refresh token was stored under the row's id. -/
theorem loginEndpoint_ok_inv (s : AuthState) (now : Nat)
    (email password : String) (acc ref : Wire)
    (h : (loginEndpoint s now email password).1 = .ok acc ref) :
    ∃ row, findUserByEmail s.users (pyLower (pyStrip email)) = some row ∧
      verify_password password row.password_hash = true ∧
      acc = create_access_token row.id now ∧
      ref = create_refresh_token row.id now ∧
      (loginEndpoint s now email password).2.sessions =
        set_refresh_token s.sessions row.id
          (create_refresh_token row.id now) := by
  simp only [loginEndpoint] at h ⊢
  split at h
  next hc1 => exact absurd h (by simp)
  next hc1 =>
    split at h
    next hrow => exact absurd h (by simp)
    next row hrow =>
      split at h
      next hver => exact absurd h (by simp)
      next hver =>
        obtain ⟨h1, h2⟩ := LoginResult.ok.inj h
        refine ⟨row, hrow, by simpa using hver, h1.symm, h2.symm, ?_⟩
        simp only [if_neg hc1, hrow, if_neg hver]

/-- refresh succeeded: the presented token was a well-typed unexpired
refresh token matching the store, and the fresh refresh token was stored
under its subject. -/
theorem refreshEndpoint_ok_inv (s : AuthState) (now : Nat) (P : Wire)
    (acc ref : Wire)
    (h : (refreshEndpoint s now P).1 = .ok acc ref) :
    ∃ c : TokenClaims, P = .tok c ∧ c.typ = "refresh" ∧ c.sub ≠ "" ∧
      get_refresh_token s.sessions c.sub = some P ∧
      acc = create_access_token c.sub now ∧
      ref = create_refresh_token c.sub now ∧
      (refreshEndpoint s now P).2.sessions =
        set_refresh_token (delete_refresh_token s.sessions c.sub) c.sub
          (create_refresh_token c.sub now) := by
  simp only [refreshEndpoint] at h ⊢
  split at h
  next hc1 => exact absurd h (by simp)
  next hc1 =>
    split at h
    next hdec => exact absurd h (by simp)
    next hdec => exact absurd h (by simp)
    next c hdec =>
      split at h
      next hty => exact absurd h (by simp)
      next hty =>
        split at h
        next hsub => exact absurd h (by simp)
        next hsub =>
          split at h
          next hget => exact absurd h (by simp)
          next stored hget =>
            split at h
            next hne => exact absurd h (by simp)
            next hne =>
              obtain ⟨h1, h2⟩ := RefreshResult.ok.inj h
              obtain ⟨hP, -⟩ := decode_token_ok_inv now P c hdec
              refine ⟨c, hP, not_not.mp hty, by simpa using hsub, ?_,
                h1.symm, h2.symm, ?_⟩
              · rw [hget, not_not.mp hne]
              · simp only [if_neg hc1, hdec, if_neg hty, if_neg hsub, hget,
                  if_neg hne]

/-- C3: in every reachable state the session store holds at most one
entry per identity, and each of the three issuing operations — register,
login, refresh — stores its freshly minted refresh token as the
identity's unique current value, so no other token can match
afterwards. -/
theorem c3_one_refresh_token_per_identity :
    (∀ s, ReachableAuth s → ∀ user_id, sessionEntries s user_id ≤ 1) ∧
    (∀ s now newId email password salt acc ref,
      (registerEndpoint s now newId email password salt).1 =
        .created acc ref →
      ref = create_refresh_token newId now ∧
      get_refresh_token
        (registerEndpoint s now newId email password salt).2.sessions newId =
        some ref ∧
      ∀ w : Wire, w ≠ ref →
        get_refresh_token
          (registerEndpoint s now newId email password salt).2.sessions
          newId ≠ some w) ∧
    (∀ s now email password acc ref,
      (loginEndpoint s now email password).1 = .ok acc ref →
      ∃ row, findUserByEmail s.users (pyLower (pyStrip email)) = some row ∧
        ref = create_refresh_token row.id now ∧
        get_refresh_token
          (loginEndpoint s now email password).2.sessions row.id = some ref ∧
        ∀ w : Wire, w ≠ ref →
          get_refresh_token
            (loginEndpoint s now email password).2.sessions row.id ≠
            some w) ∧
    (∀ s now P acc ref,
      (refreshEndpoint s now P).1 = .ok acc ref →
      ∃ c : TokenClaims, P = .tok c ∧
        ref = create_refresh_token c.sub now ∧
        get_refresh_token (refreshEndpoint s now P).2.sessions c.sub =
          some ref ∧
        ∀ w : Wire, w ≠ ref →
          get_refresh_token (refreshEndpoint s now P).2.sessions c.sub ≠
            some w) := by
  refine ⟨?_, ?_, ?_, ?_⟩
  · rintro s ⟨ops, rfl⟩ user_id
    exact countP_key_le_one _ (authSteps_nodupKeys authInit ops (by simp [authInit])) _
  · intro s now newId email password salt acc ref h
    obtain ⟨-, h2, h3⟩ :=
      registerEndpoint_created_inv s now newId email password salt acc ref h
    have hget : get_refresh_token
        (registerEndpoint s now newId email password salt).2.sessions newId =
        some (create_refresh_token newId now) := by
      rw [h3]
      exact get_refresh_token_set_self _ _ _
    refine ⟨h2, by rw [hget, h2], ?_⟩
    intro w hw hcontra
    rw [hget] at hcontra
    exact hw ((Option.some.inj hcontra).symm.trans h2.symm)
  · intro s now email password acc ref h
    obtain ⟨row, hrow, -, -, h2, h3⟩ :=
      loginEndpoint_ok_inv s now email password acc ref h
    have hget : get_refresh_token
        (loginEndpoint s now email password).2.sessions row.id =
        some (create_refresh_token row.id now) := by
      rw [h3]
      exact get_refresh_token_set_self _ _ _
    refine ⟨row, hrow, h2, by rw [hget, h2], ?_⟩
    intro w hw hcontra
    rw [hget] at hcontra
    exact hw ((Option.some.inj hcontra).symm.trans h2.symm)
  · intro s now P acc ref h
    obtain ⟨c, hP, -, -, -, -, h2, h3⟩ :=
      refreshEndpoint_ok_inv s now P acc ref h
    have hget : get_refresh_token (refreshEndpoint s now P).2.sessions c.sub =
        some (create_refresh_token c.sub now) := by
      rw [h3]
      exact get_refresh_token_set_self _ _ _
    refine ⟨c, hP, h2, by rw [hget, h2], ?_⟩
    intro w hw hcontra
    rw [hget] at hcontra
    exact hw ((Option.some.inj hcontra).symm.trans h2.symm)

/-- Witness for C3: a concrete state reached by a register followed by a
login holds exactly one session entry for the registered identity, and
the login overwrote the register's token. -/
theorem c3_one_refresh_token_per_identity_witness :
    sessionEntries
      (authSteps authInit
        [.registerOp "u1" "a@b.c" "password123" 0 0,
         .loginOp "a@b.c" "password123" 7]) "u1" ≤ 1 ∧
    get_refresh_token
      (authSteps authInit
        [.registerOp "u1" "a@b.c" "password123" 0 0,
         .loginOp "a@b.c" "password123" 7]).sessions "u1" =
      some (create_refresh_token "u1" 7) :=
  ⟨c3_one_refresh_token_per_identity.1 _
    ⟨[.registerOp "u1" "a@b.c" "password123" 0 0,
      .loginOp "a@b.c" "password123" 7], rfl⟩ "u1",
   by decide⟩

/-
  Claim C5 — revocation is permanent and renewal-blocking, while
  previously issued OACs stay decodable until their own expiry.
-/

/-- The device with the given id is present, owned by the given identity,
and every row carrying that id is marked revoked. -/
def RevokedOwnedDevice (db : List Device) (device_id owner : String) : Prop :=
  (∃ d ∈ db, d.device_id = device_id ∧ d.user_id = owner) ∧
  (∀ d ∈ db, d.device_id = device_id → d.is_revoked = true)

/-- register_device succeeded: the returned id is the generated one, the
OAC is bound to it, and no row with that id existed before the INSERT. -/
theorem register_device_created_inv (db : List Device) (now : Nat)
    (cu nid dpk dn dt av : String) (r : String) (oac : OacClaims)
    (h : (register_device db now cu nid dpk dn dt av).1 = .created r oac) :
    r = nid ∧
    oac = create_oac cu nid (hash_device_public_key (pyStrip dpk))
      (pyStrip av) now ∧
    (db.any fun d => d.device_id == nid) = false := by
  simp only [register_device] at h
  split at h
  next => exact absurd h (by simp)
  next =>
    split at h
    next => exact absurd h (by simp)
    next =>
      split at h
      next => exact absurd h (by simp)
      next =>
        split at h
        next => exact absurd h (by simp)
        next hany =>
          obtain ⟨h1, h2⟩ := RegisterDeviceResult.created.inj h
          exact ⟨h1.symm, h2.symm, Bool.not_eq_true _ ▸ eq_false_of_ne_true hany⟩

/-- renew_oac succeeded: the row was found for this caller, it was not
revoked, the OAC is bound to the requested device, and the table was
updated by overwriting last_renewed and app_version of that device. -/
theorem renew_oac_ok_inv (db : List Device) (now : Nat)
    (cu did av : String) (r : String) (oac : OacClaims)
    (h : (renew_oac db now cu did av).1 = .ok r oac) :
    ∃ row, db.find? (fun d =>
        d.device_id == pyStrip did && d.user_id == cu) = some row ∧
      row.is_revoked = false ∧
      r = pyStrip did ∧
      oac = create_oac cu (pyStrip did) row.device_public_key_hash
        (pyStrip av) now ∧
      (renew_oac db now cu did av).2 = db.map (fun d =>
        if d.device_id == pyStrip did then
          { d with
              last_renewed := now
              app_version :=
                if pyStrip av == "" then none else some (pyStrip av) }
        else d) := by
  simp only [renew_oac] at h ⊢
  split at h
  next => exact absurd h (by simp)
  next hc1 =>
    split at h
    next => exact absurd h (by simp)
    next row hfind =>
      split at h
      next => exact absurd h (by simp)
      next hnr =>
        obtain ⟨h1, h2⟩ := RenewResult.ok.inj h
        refine ⟨row, hfind, eq_false_of_ne_true hnr, h1.symm, h2.symm, ?_⟩
        simp only [if_neg hc1, hfind, if_neg hnr]

/-- A successful revoke_device call establishes the revoked-device
invariant for the revoked id and the calling owner. -/
theorem revoke_device_establishes (db : List Device) (cu did : String)
    (h : (revoke_device db cu did).1 = .ok) :
    RevokedOwnedDevice (revoke_device db cu did).2 did cu := by
  simp only [revoke_device] at h ⊢
  split at h
  next hany =>
    simp only [if_pos hany]
    obtain ⟨d, hdmem, hdp⟩ := List.any_eq_true.mp hany
    rw [Bool.and_eq_true] at hdp
    obtain ⟨hdid, hdcu⟩ := hdp
    rw [beq_iff_eq] at hdid hdcu
    constructor
    · refine ⟨{ d with is_revoked := true },
        List.mem_map.mpr ⟨d, hdmem, if_pos (beq_iff_eq.mpr hdid)⟩, hdid, hdcu⟩
    · intro d' hd' hdid'
      obtain ⟨d0, hd0, rfl⟩ := List.mem_map.mp hd'
      by_cases hc : (d0.device_id == did) = true
      · rw [if_pos hc]
      · rw [if_neg hc] at hdid'
        exact absurd (beq_iff_eq.mpr hdid') hc
  next hany => exact absurd h (by simp)

/-- No device handler ever clears a revoked flag or changes a device's
owner: the revoked-device invariant survives every operation. -/
theorem devStep_preserves_revoked (db : List Device) (op : DevOp)
    (did owner : String) (h : RevokedOwnedDevice db did owner) :
    RevokedOwnedDevice (devStep db op) did owner := by
  obtain ⟨⟨w, hwmem, hwid, hwown⟩, hall⟩ := h
  cases op with
  | registerDev cu nid dpk dn dt av now =>
    simp only [devStep, register_device]
    split
    · exact ⟨⟨w, hwmem, hwid, hwown⟩, hall⟩
    split
    · exact ⟨⟨w, hwmem, hwid, hwown⟩, hall⟩
    split
    · exact ⟨⟨w, hwmem, hwid, hwown⟩, hall⟩
    split
    · exact ⟨⟨w, hwmem, hwid, hwown⟩, hall⟩
    next hany =>
      constructor
      · exact ⟨w, List.mem_append_left _ hwmem, hwid, hwown⟩
      · intro d hd hdid
        rcases List.mem_append.mp hd with hd | hd
        · exact hall d hd hdid
        · simp only [List.mem_singleton] at hd
          subst hd
          exfalso
          exact hany (List.any_eq_true.mpr
            ⟨w, hwmem, beq_iff_eq.mpr (hwid.trans hdid.symm)⟩)
  | renewDev cu did2 av now =>
    simp only [devStep, renew_oac]
    split
    · exact ⟨⟨w, hwmem, hwid, hwown⟩, hall⟩
    split
    · exact ⟨⟨w, hwmem, hwid, hwown⟩, hall⟩
    next row hfind =>
      split
      · exact ⟨⟨w, hwmem, hwid, hwown⟩, hall⟩
      next hnr =>
        have hrowmem := List.mem_of_find?_eq_some hfind
        have hpred := List.find?_some hfind
        rw [Bool.and_eq_true] at hpred
        obtain ⟨hrid, hrcu⟩ := hpred
        rw [beq_iff_eq] at hrid
        have hdiff : pyStrip did2 ≠ did := by
          intro heq
          exact hnr (hall row hrowmem (hrid.trans heq))
        constructor
        · refine ⟨w, List.mem_map.mpr ⟨w, hwmem, ?_⟩, hwid, hwown⟩
          refine if_neg ?_
          simp only [beq_iff_eq, hwid]
          exact fun heq => hdiff heq.symm
        · intro d' hd' hdid'
          obtain ⟨d0, hd0, rfl⟩ := List.mem_map.mp hd'
          by_cases hc : (d0.device_id == pyStrip did2) = true
          · rw [if_pos hc] at hdid'
            rw [beq_iff_eq] at hc
            exact absurd (hc.symm.trans hdid') hdiff
          · rw [if_neg hc] at hdid' ⊢
            exact hall d0 hd0 hdid'
  | revokeDev cu did2 =>
    simp only [devStep, revoke_device]
    split
    next hany =>
      constructor
      · by_cases hc : (w.device_id == did2) = true
        · exact ⟨{ w with is_revoked := true },
            List.mem_map.mpr ⟨w, hwmem, if_pos hc⟩, hwid, hwown⟩
        · exact ⟨w, List.mem_map.mpr ⟨w, hwmem, if_neg hc⟩, hwid, hwown⟩
      · intro d' hd' hdid'
        obtain ⟨d0, hd0, rfl⟩ := List.mem_map.mp hd'
        by_cases hc : (d0.device_id == did2) = true
        · rw [if_pos hc]
        · rw [if_neg hc] at hdid' ⊢
          exact hall d0 hd0 hdid'
    next hany => exact ⟨⟨w, hwmem, hwid, hwown⟩, hall⟩

theorem devSteps_preserves_revoked (db : List Device) (ops : List DevOp)
    (did owner : String) (h : RevokedOwnedDevice db did owner) :
    RevokedOwnedDevice (devSteps db ops) did owner := by
  induction ops generalizing db with
  | nil => exact h
  | cons op ops ih =>
    exact ih (devStep db op) (devStep_preserves_revoked db op did owner h)

/-- Under the revoked-device invariant, the owner's renew attempt is
rejected with 403 and no caller's renew attempt can succeed. -/
theorem renew_oac_revoked_fails (db : List Device) (did owner : String)
    (hid : pyStrip did = did) (hne : did ≠ "")
    (h : RevokedOwnedDevice db did owner) :
    (∀ now av, (renew_oac db now owner did av).1 =
      .forbidden "Device has been revoked") ∧
    (∀ now cu av r oac, (renew_oac db now cu did av).1 ≠ .ok r oac) := by
  obtain ⟨⟨w, hwmem, hwid, hwown⟩, hall⟩ := h
  have hne' : (did == "") = false := beq_eq_false_iff_ne.mpr hne
  constructor
  · intro now av
    simp only [renew_oac, hid, hne', Bool.false_eq_true, if_false]
    cases hfind : db.find? (fun d =>
        d.device_id == did && d.user_id == owner) with
    | none =>
      exfalso
      have := List.find?_eq_none.mp hfind w hwmem
      simp [hwid, hwown] at this
    | some row =>
      have hpred := List.find?_some hfind
      rw [Bool.and_eq_true] at hpred
      have hrev : row.is_revoked = true :=
        hall row (List.mem_of_find?_eq_some hfind) (beq_iff_eq.mp hpred.1)
      simp [hfind, hrev]
  · intro now cu av r oac
    simp only [renew_oac, hid, hne', Bool.false_eq_true, if_false]
    cases hfind : db.find? (fun d =>
        d.device_id == did && d.user_id == cu) with
    | none => simp [hfind]
    | some row =>
      have hpred := List.find?_some hfind
      rw [Bool.and_eq_true] at hpred
      have hrev : row.is_revoked = true :=
        hall row (List.mem_of_find?_eq_some hfind) (beq_iff_eq.mp hpred.1)
      simp [hfind, hrev]

/-- Under the revoked-device invariant, no handler response carries an OAC
bound to the revoked device. -/
theorem devOpOac_not_for_revoked (db : List Device) (op : DevOp)
    (did owner : String) (h : RevokedOwnedDevice db did owner) :
    ∀ c, devOpOac db op = some c → c.did ≠ did := by
  obtain ⟨⟨w, hwmem, hwid, hwown⟩, hall⟩ := h
  intro c hc
  cases op with
  | registerDev cu nid dpk dn dt av now =>
    cases hreg : (register_device db now cu nid dpk dn dt av).1 with
    | badRequest detail => simp [devOpOac, hreg] at hc
    | dbError => simp [devOpOac, hreg] at hc
    | created r oac =>
      simp only [devOpOac, hreg] at hc
      obtain rfl := Option.some.inj hc
      obtain ⟨-, hoac, hany⟩ :=
        register_device_created_inv db now cu nid dpk dn dt av r oac hreg
      rw [hoac]
      intro hdid
      simp only [create_oac] at hdid
      have h2 : (db.any fun d => d.device_id == nid) = true :=
        List.any_eq_true.mpr ⟨w, hwmem, beq_iff_eq.mpr (hwid.trans hdid.symm)⟩
      rw [hany] at h2
      exact Bool.false_ne_true h2
  | renewDev cu did2 av now =>
    cases hren : (renew_oac db now cu did2 av).1 with
    | badRequest detail => simp [devOpOac, hren] at hc
    | notFound detail => simp [devOpOac, hren] at hc
    | forbidden detail => simp [devOpOac, hren] at hc
    | ok r oac =>
      simp only [devOpOac, hren] at hc
      obtain rfl := Option.some.inj hc
      obtain ⟨row, hfind, hnr, -, hoac, -⟩ :=
        renew_oac_ok_inv db now cu did2 av r oac hren
      rw [hoac]
      intro hdid
      simp only [create_oac] at hdid
      have hpred := List.find?_some hfind
      rw [Bool.and_eq_true] at hpred
      have : row.is_revoked = true :=
        hall row (List.mem_of_find?_eq_some hfind)
          ((beq_iff_eq.mp hpred.1).trans hdid)
      rw [hnr] at this
      exact Bool.false_ne_true this
  | revokeDev cu did2 =>
    simp [devOpOac] at hc

/-- C5: once revoke_device has succeeded for an owner's device, after any
further sequence of device operations the row (and every row with that
id) stays revoked, the owner's renew attempts fail with the 403 revoked
response, no renew by anyone succeeds, no handler ever returns an OAC for
that device again, and an OAC minted for that device before revocation
still decodes successfully at any instant before its own expiry. -/
theorem c5_revocation_permanent (db : List Device) (owner device_id : String)
    (hid : pyStrip device_id = device_id) (hne : device_id ≠ "")
    (hrev : (revoke_device db owner device_id).1 = .ok) (ops : List DevOp) :
    RevokedOwnedDevice
      (devSteps (revoke_device db owner device_id).2 ops) device_id owner ∧
    (∀ now av,
      (renew_oac (devSteps (revoke_device db owner device_id).2 ops) now owner
        device_id av).1 = .forbidden "Device has been revoked") ∧
    (∀ now cu av r oac,
      (renew_oac (devSteps (revoke_device db owner device_id).2 ops) now cu
        device_id av).1 ≠ .ok r oac) ∧
    (∀ op c,
      devOpOac (devSteps (revoke_device db owner device_id).2 ops) op =
        some c → c.did ≠ device_id) ∧
    (∀ u dpk av t0 t, t < t0 + OAC_EXPIRE_DAYS * 86400 →
      decode_oac t (.tok (create_oac u device_id dpk av t0)) =
        .ok (create_oac u device_id dpk av t0)) := by
  have hinv := devSteps_preserves_revoked _ ops device_id owner
    (revoke_device_establishes db owner device_id hrev)
  have hfails := renew_oac_revoked_fails _ device_id owner hid hne hinv
  refine ⟨hinv, hfails.1, hfails.2, ?_, ?_⟩
  · intro op c
    exact devOpOac_not_for_revoked _ op device_id owner hinv c
  · intro u dpk av t0 t ht
    simp [decode_oac, create_oac, Nat.not_le.mpr ht]

/-- Witness for C5: a concrete one-device table, revoked by its owner;
after a further renew attempt in the trace, renewing still returns the
403 revoked response, and the pre-revocation OAC still decodes before
its expiry. -/
theorem c5_revocation_permanent_witness :
    (renew_oac
      (devSteps
        (revoke_device
          [⟨"d1", "u1", "Pixel", "android", "h1", some "1.0", false, 0, 0⟩]
          "u1" "d1").2
        [.renewDev "u1" "d1" "2.0" 4]) 5 "u1" "d1" "2.0").1 =
      .forbidden "Device has been revoked" ∧
    decode_oac 3 (.tok (create_oac "u1" "d1" "h1" "1.0" 0)) =
      .ok (create_oac "u1" "d1" "h1" "1.0" 0) := by
  have h := c5_revocation_permanent
    [⟨"d1", "u1", "Pixel", "android", "h1", some "1.0", false, 0, 0⟩]
    "u1" "d1" (by decide) (by decide) (by decide) [.renewDev "u1" "d1" "2.0" 4]
  exact ⟨h.2.1 5 "2.0", h.2.2.2.2 "u1" "h1" "1.0" 0 3 (by decide)⟩

/-
  Claim C10 — a successful renew always overwrites app_version (to NULL
  when the caller omitted it) and touches no other field but
  last_renewed.
-/

/-- C10: when the requested device exists for the caller and is not
revoked, renew succeeds, and the stored row is replaced by one whose
last_renewed is the present instant and whose app_version is the
caller-sent stripped value — NULL when that value is empty or absent,
erasing whatever version was stored before.  Every other device row is
untouched, and every field of the renewed row other than app_version and
last_renewed keeps its value. -/
theorem c10_renew_overwrites_app_version (db : List Device) (now : Nat)
    (cu device_id app_version : String) (row : Device)
    (hfind : db.find? (fun d =>
      d.device_id == pyStrip device_id && d.user_id == cu) = some row)
    (hnotrev : row.is_revoked = false)
    (hne : pyStrip device_id ≠ "") :
    (renew_oac db now cu device_id app_version).1 =
      .ok (pyStrip device_id)
        (create_oac cu (pyStrip device_id) row.device_public_key_hash
          (pyStrip app_version) now) ∧
    (∀ d ∈ db, d.device_id = pyStrip device_id →
      { d with
          last_renewed := now
          app_version := if pyStrip app_version == "" then none
            else some (pyStrip app_version) } ∈
        (renew_oac db now cu device_id app_version).2) ∧
    (pyStrip app_version = "" →
      ∀ d' ∈ (renew_oac db now cu device_id app_version).2,
        d'.device_id = pyStrip device_id → d'.app_version = none) ∧
    (∀ d ∈ db, d.device_id ≠ pyStrip device_id →
      d ∈ (renew_oac db now cu device_id app_version).2) ∧
    (∀ d' ∈ (renew_oac db now cu device_id app_version).2, ∃ d ∈ db,
      d'.device_id = d.device_id ∧ d'.user_id = d.user_id ∧
      d'.device_name = d.device_name ∧ d'.device_type = d.device_type ∧
      d'.device_public_key_hash = d.device_public_key_hash ∧
      d'.is_revoked = d.is_revoked ∧ d'.registered_at = d.registered_at ∧
      (d.device_id ≠ pyStrip device_id → d' = d)) := by
  have hne' : (pyStrip device_id == "") = false := beq_eq_false_iff_ne.mpr hne
  have hmain : renew_oac db now cu device_id app_version =
      (.ok (pyStrip device_id)
        (create_oac cu (pyStrip device_id) row.device_public_key_hash
          (pyStrip app_version) now),
       db.map (fun d =>
        if d.device_id == pyStrip device_id then
          { d with
              last_renewed := now
              app_version := if pyStrip app_version == "" then none
                else some (pyStrip app_version) }
        else d)) := by
    simp [renew_oac, hne', hfind, hnotrev]
  rw [hmain]
  refine ⟨rfl, ?_, ?_, ?_, ?_⟩
  · intro d hd hdid
    exact List.mem_map.mpr ⟨d, hd, if_pos (beq_iff_eq.mpr hdid)⟩
  · intro hav d' hd' hdid'
    obtain ⟨d0, hd0, rfl⟩ := List.mem_map.mp hd'
    by_cases hc : (d0.device_id == pyStrip device_id) = true
    · rw [if_pos hc]
      simp [beq_iff_eq.mpr hav]
    · rw [if_neg hc] at hdid'
      exact absurd (beq_iff_eq.mpr hdid') hc
  · intro d hd hdid
    exact List.mem_map.mpr ⟨d, hd, if_neg (fun hc =>
      hdid (beq_iff_eq.mp hc))⟩
  · intro d' hd'
    obtain ⟨d0, hd0, rfl⟩ := List.mem_map.mp hd'
    by_cases hc : (d0.device_id == pyStrip device_id) = true
    · rw [if_pos hc]
      exact ⟨d0, hd0, rfl, rfl, rfl, rfl, rfl, rfl, rfl,
        fun hne2 => absurd (beq_iff_eq.mp hc) hne2⟩
    · rw [if_neg hc]
      exact ⟨d0, hd0, rfl, rfl, rfl, rfl, rfl, rfl, rfl, fun _ => rfl⟩

/-- Witness for C10: renewing a concrete device that stored version 1.0
with an empty app_version succeeds and leaves the row with a NULL
app_version and the new last_renewed, with every other field intact. -/
theorem c10_renew_overwrites_app_version_witness :
    (renew_oac
      [⟨"d1", "u1", "Pixel", "android", "h1", some "1.0", false, 0, 0⟩]
      9 "u1" "d1" "").1 =
      .ok "d1" (create_oac "u1" "d1" "h1" "" 9) ∧
    (⟨"d1", "u1", "Pixel", "android", "h1", none, false, 0, 9⟩ : Device) ∈
      (renew_oac
        [⟨"d1", "u1", "Pixel", "android", "h1", some "1.0", false, 0, 0⟩]
        9 "u1" "d1" "").2 := by
  have h := c10_renew_overwrites_app_version
    [⟨"d1", "u1", "Pixel", "android", "h1", some "1.0", false, 0, 0⟩]
    9 "u1" "d1" ""
    ⟨"d1", "u1", "Pixel", "android", "h1", some "1.0", false, 0, 0⟩
    (by decide) rfl (by decide)
  refine ⟨h.1, ?_⟩
  have h2 := h.2.1
    ⟨"d1", "u1", "Pixel", "android", "h1", some "1.0", false, 0, 0⟩
    (by decide) rfl
  simpa using h2

end Robotics
